import Mathlib

/-!
Shallow embedding of the CorpFin360 ML service orchestrator
(`src/backend/ml/service_orchestrator.py`).

Python dictionaries are modelled as association lists of `String × PyVal`;
numbers are rationals (the source only adds, multiplies, divides and
compares financial figures, all of which are exact here); the behaviour of
the external model objects (`predict_*`, `train`) is passed in as an
`Except String PyVal` value, since those are external collaborators of the
orchestrator.  Raising an exception is modelled by the `.error` case.
-/

namespace CorpFin

/-- Python-like runtime values: numbers, strings, booleans, dicts, lists. -/
inductive PyVal where
  | num (q : ℚ)
  | str (s : String)
  | bool (b : Bool)
  | dict (entries : List (String × PyVal))
  | arr (xs : List PyVal)

/-- Lookup of a key in a dict body, mirroring `d.get(key)` (returns `none`
when the key is absent). -/
def dictGet : List (String × PyVal) → String → Option PyVal
  | [], _ => none
  | (k, v) :: rest, key => if k = key then some v else dictGet rest key

/-- Python truthiness of a value. -/
def PyVal.truthy : PyVal → Bool
  | .num q => decide (q ≠ 0)
  | .str s => decide (s ≠ "")
  | .bool b => b
  | .dict d => !d.isEmpty
  | .arr xs => !xs.isEmpty

/-- Truthiness of `d.get(key)`: an absent key yields `None`, which is falsy. -/
def truthyO : Option PyVal → Bool
  | none => false
  | some v => v.truthy

/-- `pyGet v k` is `v.get(k)` when `v` is a dict, `none` otherwise. -/
def pyGet : PyVal → String → Option PyVal
  | .dict d, key => dictGet d key
  | _, _ => none

/-- `v.get(key, dflt)` read as a number (the source only compares these
values numerically). -/
def getNum (v : PyVal) (key : String) (dflt : ℚ) : ℚ :=
  match pyGet v key with
  | some (.num q) => q
  | _ => dflt

/-- `v.get(key)` read as a string, `none` when absent or not a string. -/
def getStr (v : PyVal) (key : String) : Option String :=
  match pyGet v key with
  | some (.str s) => some s
  | _ => none

/-- Substring test on character lists: `containsSub sub l` iff `sub` occurs
as a contiguous sublist of `l`. -/
def containsSub (sub : List Char) : List Char → Bool
  | [] => sub.isEmpty
  | c :: rest => sub.isPrefixOf (c :: rest) || containsSub sub rest

/-- Python's `sub in s` for strings. -/
def strContains (s sub : String) : Bool :=
  containsSub sub.data s.data

/-- The company-data mapping: the orchestrator only ever reads these four
keys, each via `.get` with a default, so optional fields suffice. -/
structure CompanyData where
  revenue : Option ℚ
  net_income : Option ℚ
  total_assets : Option ℚ
  total_liabilities : Option ℚ

/-- The market-data mapping as read by the market-trend fallback. -/
structure MarketData where
  current_price : Option ℚ
  price_change_percent : Option ℚ

/-! ## Fallback engine (`_default_*` methods) -/

/-- The health score computed by `_default_financial_health_analysis`:
base 50, profit margin and debt ratio bonuses, revenue bonus, then
`min(score, 100)`. -/
def fhScore (cd : CompanyData) : ℚ :=
  let revenue := cd.revenue.getD 0
  let profit := cd.net_income.getD 0
  let assets := cd.total_assets.getD 0
  let liabilities := cd.total_liabilities.getD 0
  let profit_margin := if revenue > 0 then profit / revenue else 0
  let debt_ratio := if assets > 0 then liabilities / assets else 0
  let s1 : ℚ :=
    if profit_margin > 0.15 then 50 + 20
    else if profit_margin > 0.05 then 50 + 10
    else 50
  let s2 :=
    if debt_ratio < 0.5 then s1 + 20
    else if debt_ratio < 0.7 then s1 + 10
    else s1
  let s3 := if revenue > 1000000 then s2 + 10 else s2
  min s3 100

/-- `MLServiceOrchestrator._default_financial_health_analysis`. -/
def defaultFinancialHealthAnalysis (cd : CompanyData) : List (String × PyVal) :=
  let health_score := fhScore cd
  [("health_score", .num health_score),
   ("risk_score", .num (100 - health_score)),
   ("health_category", .str
      (if health_score > 60 then "Good"
       else if health_score > 40 then "Fair" else "Poor")),
   ("risk_category", .str
      (if health_score > 60 then "Low Risk"
       else if health_score > 40 then "Moderate Risk" else "High Risk")),
   ("analysis_method", .str "rule_based_fallback")]

/-- `MLServiceOrchestrator._default_business_valuation`. -/
def defaultBusinessValuation (cd : CompanyData) : List (String × PyVal) :=
  let revenue := cd.revenue.getD 1000000
  let profit := cd.net_income.getD 100000
  let revenue_based := revenue * 2.0
  let profit_based := profit * 15.0
  let valuation := max revenue_based profit_based
  [("valuation", .num valuation),
   ("valuation_range", .dict
      [("min", .num (valuation * 0.8)), ("max", .num (valuation * 1.2))]),
   ("methodology", .arr
      [.str "Revenue multiple approach", .str "Profit multiple approach"]),
   ("analysis_method", .str "multiple_based_fallback")]

/-- `MLServiceOrchestrator._default_market_trend_analysis`. -/
def defaultMarketTrendAnalysis (md : MarketData) : List (String × PyVal) :=
  let trend_direction : String :=
    match md.price_change_percent with
    | some change =>
        if change > 0.02 then "bullish"
        else if change < -0.02 then "bearish" else "neutral"
    | none => "neutral"
  [("trend_direction", .str trend_direction),
   ("confidence_score", .num 0.5),
   ("key_factors", .arr [.str "Price movement analysis"]),
   ("analysis_method", .str "trend_based_fallback")]

/-! ## Single-domain queries

Each `analyze_*` coroutine reads the model's `is_trained` flag, either
returns the fallback dict directly (untrained), or calls the model's
predict method.  The model's behaviour is external, so the predict outcome
is a parameter: `.ok payload` for a normal return, `.error msg` for a
raised exception whose `str(e)` is `msg`.  The per-domain status record
only changes in its `last_used` field here, which we thread explicitly;
`now` is the event-loop time read after a successful predict. -/

/-- `MLServiceOrchestrator.analyze_financial_health`: returns the result
dict and the new `last_used` value of the `financial_health` status. -/
def analyzeFinancialHealth (trained : Bool) (predict : Except String PyVal)
    (cd : CompanyData) (lastUsed : Option ℚ) (now : ℚ) :
    List (String × PyVal) × Option ℚ :=
  if !trained then
    (defaultFinancialHealthAnalysis cd, lastUsed)
  else
    match predict with
    | .ok r =>
        ([("success", .bool true),
          ("analysis", r),
          ("model_used", .str "financial_health"),
          ("confidence", .str (if trained then "high" else "low"))],
         some now)
    | .error msg =>
        ([("success", .bool false),
          ("error", .str msg),
          ("fallback_analysis", .dict (defaultFinancialHealthAnalysis cd))],
         lastUsed)

/-- `MLServiceOrchestrator.estimate_business_valuation` (the
`confidence_level` argument is only forwarded to the external predict
call, so it does not appear here). -/
def estimateBusinessValuation (trained : Bool) (predict : Except String PyVal)
    (cd : CompanyData) (lastUsed : Option ℚ) (now : ℚ) :
    List (String × PyVal) × Option ℚ :=
  if !trained then
    (defaultBusinessValuation cd, lastUsed)
  else
    match predict with
    | .ok r =>
        ([("success", .bool true),
          ("valuation", r),
          ("model_used", .str "business_valuation"),
          ("confidence", .str (if trained then "high" else "low"))],
         some now)
    | .error msg =>
        ([("success", .bool false),
          ("error", .str msg),
          ("fallback_valuation", .dict (defaultBusinessValuation cd))],
         lastUsed)

/-- `MLServiceOrchestrator.analyze_market_trends` (`news_data` and
`prediction_horizon` are only forwarded to the external predict call). -/
def analyzeMarketTrends (trained : Bool) (predict : Except String PyVal)
    (md : MarketData) (lastUsed : Option ℚ) (now : ℚ) :
    List (String × PyVal) × Option ℚ :=
  if !trained then
    (defaultMarketTrendAnalysis md, lastUsed)
  else
    match predict with
    | .ok r =>
        ([("success", .bool true),
          ("analysis", r),
          ("model_used", .str "market_trends"),
          ("confidence", .str (if trained then "high" else "low"))],
         some now)
    | .error msg =>
        ([("success", .bool false),
          ("error", .str msg),
          ("fallback_analysis", .dict (defaultMarketTrendAnalysis md))],
         lastUsed)

/-! ## Training trigger -/

/-- The mutable per-domain status record kept in `self.model_status`
(`last_trained` is absent until the first successful training, hence
optional). -/
structure ModelStatus where
  trained : Bool
  last_used : Option ℚ
  last_trained : Option ℚ

/-- `MLServiceOrchestrator.train_model`: `found` is `model_name in
self.models`, `hasTrain` is `hasattr(model, 'train')`, and `trainResult`
is the outcome of `model.train(training_data)` (`.error msg` for a raised
exception).  Returns the response dict and the new status record. -/
def trainModel (found hasTrain : Bool) (trainResult : Except String PyVal)
    (st : ModelStatus) (modelName : String) (now : ℚ) :
    List (String × PyVal) × ModelStatus :=
  if !found then
    ([("success", .bool false),
      ("error", .str ("Model " ++ modelName ++ " not found"))], st)
  else if hasTrain then
    match trainResult with
    | .ok tr =>
        ([("success", .bool true),
          ("model", .str modelName),
          ("training_result", tr),
          ("status", .str "trained")],
         { st with trained := true, last_trained := some now })
    | .error msg =>
        ([("success", .bool false), ("error", .str msg)], st)
  else
    ([("success", .bool false),
      ("error", .str ("Model " ++ modelName ++ " does not support training"))],
     st)

/-! ## Comprehensive analysis -/

/-- Truthiness of the optional `market_data` argument: `None` and the
empty dict are both falsy in `if market_data:`. -/
def marketTruthy (md : Option (List (String × PyVal))) : Bool :=
  match md with
  | none => false
  | some d => !d.isEmpty

/-- The fan-in loop over `asyncio.gather(*tasks, return_exceptions=True)`:
each outcome is either a result dict or an escaped exception, and is
stored under the key `analysis_<index>`, exceptions as
`{'success': False, 'error': str(result)}`. -/
def gatherResults (outcomes : List (Except String (List (String × PyVal)))) :
    List (String × PyVal) :=
  outcomes.enum.map fun p =>
    ("analysis_" ++ toString p.1,
     match p.2 with
     | .ok d => PyVal.dict d
     | .error msg =>
         PyVal.dict [("success", .bool false), ("error", .str msg)])

/-- The `analysis_results` dict built by
`MLServiceOrchestrator.comprehensive_analysis`: health and valuation are
always dispatched, market trends only when `market_data` is truthy; each
sub-analysis outcome (normal dict or escaped exception) is a parameter. -/
def comprehensiveGather (md : Option (List (String × PyVal)))
    (fhOutcome valOutcome mktOutcome :
      Except String (List (String × PyVal))) :
    List (String × PyVal) :=
  gatherResults
    (if marketTruthy md then [fhOutcome, valOutcome, mktOutcome]
     else [fhOutcome, valOutcome])

/-! ## Insight synthesizer -/

/-- The financial-health insight segment of the loop body of
`_generate_comprehensive_insights`. -/
def fhInsight (name : String) (result : PyVal) : List String :=
  if strContains name "financial_health" &&
      (pyGet result "analysis").isSome then
    let a := (pyGet result "analysis").getD (.dict [])
    if getNum a "health_score" 0 > 80 then
      ["Company shows excellent financial health with strong fundamentals"]
    else if getNum a "health_score" 0 < 40 then
      ["Company faces significant financial challenges requiring immediate attention"]
    else []
  else []

/-- The valuation insight segment of the loop body. -/
def valInsight (name : String) (result : PyVal) : List String :=
  if strContains name "business_valuation" &&
      (pyGet result "valuation").isSome then
    let v := (pyGet result "valuation").getD (.dict [])
    if getNum v "valuation" 0 > 10000000 then
      ["High company valuation indicates strong market position and growth potential"]
    else []
  else []

/-- The market-trend insight segment of the loop body. -/
def mktInsight (name : String) (result : PyVal) : List String :=
  if strContains name "market_trends" &&
      (pyGet result "analysis").isSome then
    let a := (pyGet result "analysis").getD (.dict [])
    if getStr a "trend_direction" = some "bullish" then
      ["Positive market trends suggest favorable conditions for growth"]
    else []
  else []

/-- The insight strings contributed by one named result inside the loop of
`_generate_comprehensive_insights`. -/
def insightsFor (name : String) (result : PyVal) : List String :=
  if truthyO (pyGet result "success") then
    fhInsight name result ++ valInsight name result ++ mktInsight name result
  else []

/-- `MLServiceOrchestrator._generate_comprehensive_insights`. -/
def generateComprehensiveInsights (ars : List (String × PyVal)) :
    List String :=
  let insights := (ars.map fun p => insightsFor p.1 p.2).flatten
  if insights.isEmpty then ["Analysis completed successfully"] else insights

/-- `MLServiceOrchestrator._generate_analysis_summary`. -/
def generateAnalysisSummary (ars : List (String × PyVal)) : String :=
  let successful := (ars.filter fun p => truthyO (pyGet p.2 "success")).length
  let total := ars.length
  if successful = total then
    "All " ++ toString total ++ " analyses completed successfully with high confidence"
  else if successful > 0 then
    toString successful ++ " out of " ++ toString total ++
      " analyses completed successfully"
  else
    "Analysis completed with fallback methods due to model unavailability"

/-- The high-priority financial-health recommendation dict. -/
def recHealth : PyVal :=
  .dict [("category", .str "Financial Health"),
         ("action", .str "Implement cost reduction and revenue optimization strategies"),
         ("priority", .str "High"),
         ("timeline", .str "Immediate")]

/-- The medium-priority valuation recommendation dict. -/
def recValuation : PyVal :=
  .dict [("category", .str "Valuation"),
         ("action", .str "Focus on growth initiatives to increase company value"),
         ("priority", .str "Medium"),
         ("timeline", .str "3-6 months")]

/-- The default low-priority recommendation dict. -/
def recDefault : PyVal :=
  .dict [("category", .str "General"),
         ("action", .str "Continue monitoring key financial metrics"),
         ("priority", .str "Low"),
         ("timeline", .str "Ongoing")]

/-- The recommendations contributed by one named result inside the loop of
`_generate_recommendations`. -/
def recsFor (name : String) (result : PyVal) : List PyVal :=
  if truthyO (pyGet result "success") then
    (if strContains name "financial_health" &&
        (pyGet result "analysis").isSome then
       let a := (pyGet result "analysis").getD (.dict [])
       if getNum a "health_score" 0 < 50 then [recHealth] else []
     else []) ++
    (if strContains name "business_valuation" &&
        (pyGet result "valuation").isSome then
       let v := (pyGet result "valuation").getD (.dict [])
       if getNum v "valuation" 0 < 5000000 then [recValuation] else []
     else [])
  else []

/-- `MLServiceOrchestrator._generate_recommendations`. -/
def generateRecommendations (ars : List (String × PyVal)) : List PyVal :=
  let recs := (ars.map fun p => recsFor p.1 p.2).flatten
  if recs.isEmpty then [recDefault] else recs

/-- `MLServiceOrchestrator.comprehensive_analysis`: the returned report. -/
def comprehensiveAnalysis (md : Option (List (String × PyVal)))
    (fhOutcome valOutcome mktOutcome :
      Except String (List (String × PyVal))) :
    List (String × PyVal) :=
  let ars := comprehensiveGather md fhOutcome valOutcome mktOutcome
  [("success", .bool true),
   ("comprehensive_analysis", .dict ars),
   ("insights", .arr ((generateComprehensiveInsights ars).map .str)),
   ("summary", .str (generateAnalysisSummary ars)),
   ("recommendations", .arr (generateRecommendations ars))]

/-! ## Spec-side formulation of the financial-health fallback score

The claim states the score with an explicit clamp to `[0, 100]`, while the
source only applies `min(score, 100)`; this definition follows the claim's
words so the two can be compared. -/

/-- The health score as the spec words it: base 50, additive bonuses,
then clamped to the interval `[0, 100]`. -/
def specHealthScore (cd : CompanyData) : ℚ :=
  let revenue := cd.revenue.getD 0
  let profit := cd.net_income.getD 0
  let assets := cd.total_assets.getD 0
  let liabilities := cd.total_liabilities.getD 0
  let profit_margin := if revenue > 0 then profit / revenue else 0
  let debt_ratio := if assets > 0 then liabilities / assets else 0
  let raw : ℚ := 50 +
    (if profit_margin > 0.15 then 20 else if profit_margin > 0.05 then 10 else 0) +
    (if debt_ratio < 0.5 then 20 else if debt_ratio < 0.7 then 10 else 0) +
    (if revenue > 1000000 then 10 else 0)
  max 0 (min raw 100)

/-! ## Helper lemmas -/

/-- The base score 50 is a lower bound of the fallback health score. -/
theorem fhScore_ge (cd : CompanyData) : 50 ≤ fhScore cd := by
  simp only [fhScore]
  split_ifs <;> simp [le_min_iff] <;> norm_num

/-- 100 is an upper bound of the fallback health score. -/
theorem fhScore_le (cd : CompanyData) : fhScore cd ≤ 100 := by
  simp only [fhScore]
  split_ifs <;> exact min_le_right _ _

/-- The source's `min`-only score agrees with the spec's clamped score. -/
theorem fhScore_eq_specHealthScore (cd : CompanyData) :
    fhScore cd = specHealthScore cd := by
  simp only [fhScore, specHealthScore]
  split_ifs <;> norm_num [min_def, max_def]

/-- A member failing the filter predicate makes the filtered list strictly
shorter. -/
theorem length_filter_lt_of_mem {α : Type} {l : List α} {p : α → Bool}
    {x : α} (hx : x ∈ l) (hp : p x = false) :
    (l.filter p).length < l.length := by
  induction l with
  | nil => cases hx
  | cons a t ih =>
    rcases List.mem_cons.mp hx with rfl | hxt
    · simp only [List.filter_cons, hp]
      exact Nat.lt_succ_of_le (List.length_filter_le p t)
    · simp only [List.filter_cons]
      by_cases hpa : p a
      · simpa [hpa] using Nat.succ_lt_succ (ih hxt)
      · simp only [Bool.not_eq_true] at hpa
        simp only [hpa, cond_false, List.length_cons]
        exact Nat.lt_succ_of_lt (ih hxt)

/-- Every character produced by `Nat.toDigitsCore` is either carried over
from the accumulator or is a digit character. -/
theorem toDigitsCore_mem (b : Nat) :
    ∀ (f n : Nat) (ds : List Char) (c : Char),
      c ∈ Nat.toDigitsCore b f n ds →
      c ∈ ds ∨ ∃ k, c = Nat.digitChar (k % b) := by
  intro f
  induction f with
  | zero => intro n ds c h; exact Or.inl h
  | succ f ih =>
    intro n ds c h
    rw [show Nat.toDigitsCore b (f+1) n ds =
        (if n / b = 0 then Nat.digitChar (n % b) :: ds
         else Nat.toDigitsCore b f (n / b) (Nat.digitChar (n % b) :: ds))
      from rfl] at h
    by_cases hnb : n / b = 0
    · rw [if_pos hnb] at h
      rcases List.mem_cons.mp h with rfl | hds
      · exact Or.inr ⟨n, rfl⟩
      · exact Or.inl hds
    · rw [if_neg hnb] at h
      rcases ih (n / b) (Nat.digitChar (n % b) :: ds) c h with hds | hk
      · rcases List.mem_cons.mp hds with rfl | hds2
        · exact Or.inr ⟨n, rfl⟩
        · exact Or.inl hds2
      · exact Or.inr hk

/-- No character of the decimal representation of a natural number is the
letter `A`. -/
theorem repr_char_ne_A (n : Nat) (c : Char) (hc : c ∈ (Nat.repr n).data) :
    c ≠ 'A' := by
  have hdata : (Nat.repr n).data = Nat.toDigitsCore 10 (n+1) n [] := rfl
  rw [hdata] at hc
  rcases toDigitsCore_mem 10 (n+1) n [] c hc with h | ⟨k, rfl⟩
  · cases h
  · have hk : k % 10 < 10 := Nat.mod_lt _ (by norm_num)
    set m := k % 10 with hm
    interval_cases m <;> decide

/-- The summary never matches the all-successful template as soon as one
result has a falsy `success` field. -/
theorem summary_ne_allTemplate (ars : List (String × PyVal))
    (q : String × PyVal) (hq : q ∈ ars)
    (hfail : truthyO (pyGet q.2 "success") = false) :
    generateAnalysisSummary ars ≠
      "All " ++ toString ars.length ++
        " analyses completed successfully with high confidence" := by
  have hlt : ((ars.filter fun p => truthyO (pyGet p.2 "success")).length)
      < ars.length := length_filter_lt_of_mem hq hfail
  simp only [generateAnalysisSummary]
  rw [if_neg (Nat.ne_of_lt hlt)]
  by_cases hpos :
      0 < (ars.filter fun p => truthyO (pyGet p.2 "success")).length
  · rw [if_pos hpos]
    intro h
    have hd := congrArg String.data h
    simp only [String.data_append] at hd
    rw [show (toString ((ars.filter fun p =>
          truthyO (pyGet p.2 "success")).length)) =
        Nat.repr ((ars.filter fun p =>
          truthyO (pyGet p.2 "success")).length) from rfl] at hd
    rw [List.append_assoc, List.append_assoc] at hd
    cases hrepr : (Nat.repr ((ars.filter fun p =>
        truthyO (pyGet p.2 "success")).length)).data with
    | nil =>
        rw [hrepr, List.nil_append] at hd
        have h0 := congrArg (fun l => l.get? 0) hd
        exact absurd (show (some ' ' : Option Char) = some 'A' from h0)
          (by decide)
    | cons c cs =>
        rw [hrepr] at hd
        have h0 := congrArg (fun l => l.get? 0) hd
        have hcA : c = 'A' :=
          Option.some.inj (show some c = some 'A' from h0)
        exact repr_char_ne_A _ c (hrepr ▸ List.mem_cons_self c cs) hcA
  · rw [if_neg hpos]
    intro h
    have hd := congrArg String.data h
    simp only [String.data_append] at hd
    have h1 := congrArg (fun l => l.get? 1) hd
    exact absurd (show (some 'n' : Option Char) = some 'l' from h1)
      (by decide)

/-- The company of the claim's worked example: revenue 2,000,000,
net income 400,000, assets 1,000,000, liabilities 400,000. -/
def exampleCompany : CompanyData :=
  ⟨some 2000000, some 400000, some 1000000, some 400000⟩

/-- The company mapping with no fields supplied. -/
def emptyCompany : CompanyData := ⟨none, none, none, none⟩

/-- C4: the financial-health fallback computes the additive score (base 50,
margin bonus 20/10, debt bonus 20/10, revenue bonus 10, clamped to
`[0,100]` — equal to the source's `min(score, 100)`), risk score
`100 − health score`, the stated categories, and on the worked example
(revenue 2,000,000, net income 400,000, assets 1,000,000, liabilities
400,000) yields health score 100, category `Good`, risk score 0. -/
theorem C4_fh_fallback_formula :
    (∀ cd : CompanyData, fhScore cd = specHealthScore cd) ∧
    (∀ cd : CompanyData,
      dictGet (defaultFinancialHealthAnalysis cd) "health_score" =
        some (.num (fhScore cd)) ∧
      dictGet (defaultFinancialHealthAnalysis cd) "risk_score" =
        some (.num (100 - fhScore cd)) ∧
      dictGet (defaultFinancialHealthAnalysis cd) "health_category" =
        some (.str (if fhScore cd > 60 then "Good"
          else if fhScore cd > 40 then "Fair" else "Poor")) ∧
      dictGet (defaultFinancialHealthAnalysis cd) "risk_category" =
        some (.str (if fhScore cd > 60 then "Low Risk"
          else if fhScore cd > 40 then "Moderate Risk" else "High Risk"))) ∧
    (fhScore exampleCompany = 100 ∧
     dictGet (defaultFinancialHealthAnalysis exampleCompany) "health_score" =
       some (.num 100) ∧
     dictGet (defaultFinancialHealthAnalysis exampleCompany) "health_category" =
       some (.str "Good") ∧
     dictGet (defaultFinancialHealthAnalysis exampleCompany) "risk_score" =
       some (.num 0)) := by
  have hex : fhScore exampleCompany = 100 := by
    simp only [fhScore, exampleCompany]
    norm_num
  refine ⟨fhScore_eq_specHealthScore, ?_, hex, ?_, ?_, ?_⟩
  · intro cd
    simp [defaultFinancialHealthAnalysis, dictGet]
  · simp [defaultFinancialHealthAnalysis, dictGet, hex]
  · simp [defaultFinancialHealthAnalysis, dictGet, hex,
      show (100 : ℚ) > 60 from by norm_num]
  · simp [defaultFinancialHealthAnalysis, dictGet, hex]

/-- C5: the valuation fallback defaults revenue to 1,000,000 and net income
to 100,000 exactly when absent, returns
`valuation = max(revenue*2, net_income*15)` with range
`[valuation*0.8, valuation*1.2]`; with no input fields it yields
valuation 2,000,000 and range `[1,600,000, 2,400,000]`. -/
theorem C5_valuation_fallback_formula :
    (∀ cd : CompanyData,
      dictGet (defaultBusinessValuation cd) "valuation" =
        some (.num (max (cd.revenue.getD 1000000 * 2)
          (cd.net_income.getD 100000 * 15))) ∧
      dictGet (defaultBusinessValuation cd) "valuation_range" =
        some (.dict
          [("min", .num (max (cd.revenue.getD 1000000 * 2)
              (cd.net_income.getD 100000 * 15) * 0.8)),
           ("max", .num (max (cd.revenue.getD 1000000 * 2)
              (cd.net_income.getD 100000 * 15) * 1.2))])) ∧
    (dictGet (defaultBusinessValuation emptyCompany) "valuation" =
       some (.num 2000000) ∧
     dictGet (defaultBusinessValuation emptyCompany) "valuation_range" =
       some (.dict [("min", .num 1600000), ("max", .num 2400000)])) := by
  have hmax : max ((1000000 : ℚ) * 2) (100000 * 15) = 2000000 := by norm_num
  constructor
  · intro cd
    constructor
    · simp [defaultBusinessValuation, dictGet]
      norm_num
    · simp [defaultBusinessValuation, dictGet]
      norm_num
  · constructor
    · simp [defaultBusinessValuation, dictGet, emptyCompany]
      norm_num
    · simp [defaultBusinessValuation, dictGet, emptyCompany]
      norm_num

/-- C9: the fallback health score always lies in `[50, 100]`, so the risk
score lies in `[0, 50]`, the health category is never `Poor` and the risk
category is never `High Risk`. -/
theorem C9_fh_fallback_bounds :
    ∀ cd : CompanyData,
      (50 ≤ fhScore cd ∧ fhScore cd ≤ 100) ∧
      dictGet (defaultFinancialHealthAnalysis cd) "health_score" =
        some (.num (fhScore cd)) ∧
      dictGet (defaultFinancialHealthAnalysis cd) "risk_score" =
        some (.num (100 - fhScore cd)) ∧
      (0 ≤ 100 - fhScore cd ∧ 100 - fhScore cd ≤ 50) ∧
      dictGet (defaultFinancialHealthAnalysis cd) "health_category" ≠
        some (.str "Poor") ∧
      dictGet (defaultFinancialHealthAnalysis cd) "risk_category" ≠
        some (.str "High Risk") := by
  intro cd
  have h50 := fhScore_ge cd
  have h100 := fhScore_le cd
  refine ⟨⟨h50, h100⟩, ?_, ?_, ⟨by linarith, by linarith⟩, ?_, ?_⟩
  · simp [defaultFinancialHealthAnalysis, dictGet]
  · simp [defaultFinancialHealthAnalysis, dictGet]
  · simp only [defaultFinancialHealthAnalysis, dictGet]
    by_cases h60 : fhScore cd > 60
    · simp [h60]
    · have h40 : fhScore cd > 40 := by linarith
      simp [h60, h40]
  · simp only [defaultFinancialHealthAnalysis, dictGet]
    by_cases h60 : fhScore cd > 60
    · simp [h60]
    · have h40 : fhScore cd > 40 := by linarith
      simp [h60, h40]

/-- C1 counterexample: with the business-valuation model untrained and an
arbitrary input, the returned dict has no `success` key at all (so not
`success == true`), no `confidence` key (so not `"low"`), and its
`analysis_method` is `"multiple_based_fallback"`, not
`"rule_based_fallback"`. -/
theorem C1_counterexample :
    dictGet (estimateBusinessValuation false (.ok (.dict []))
      emptyCompany none 0).1 "success" = none ∧
    dictGet (estimateBusinessValuation false (.ok (.dict []))
      emptyCompany none 0).1 "confidence" = none ∧
    dictGet (estimateBusinessValuation false (.ok (.dict []))
      emptyCompany none 0).1 "analysis_method" =
      some (.str "multiple_based_fallback") := by
  refine ⟨?_, ?_, ?_⟩ <;>
    simp [estimateBusinessValuation, defaultBusinessValuation, dictGet]

/-- C1 amended: when a domain's model is untrained, the single-domain
operation returns the domain's fallback dict directly without invoking
predict and without touching `last_used`; that dict carries no `success`
and no `confidence` key, and its `analysis_method` tag is
`"rule_based_fallback"` for financial health, `"multiple_based_fallback"`
for valuation, and `"trend_based_fallback"` for market trends. -/
theorem C1_untrained_returns_fallback_directly :
    ∀ (cd : CompanyData) (md : MarketData) (lu : Option ℚ) (now : ℚ)
      (p p' : Except String PyVal),
      analyzeFinancialHealth false p cd lu now =
        (defaultFinancialHealthAnalysis cd, lu) ∧
      estimateBusinessValuation false p cd lu now =
        (defaultBusinessValuation cd, lu) ∧
      analyzeMarketTrends false p md lu now =
        (defaultMarketTrendAnalysis md, lu) ∧
      analyzeFinancialHealth false p cd lu now =
        analyzeFinancialHealth false p' cd lu now ∧
      estimateBusinessValuation false p cd lu now =
        estimateBusinessValuation false p' cd lu now ∧
      analyzeMarketTrends false p md lu now =
        analyzeMarketTrends false p' md lu now ∧
      dictGet (defaultFinancialHealthAnalysis cd) "success" = none ∧
      dictGet (defaultFinancialHealthAnalysis cd) "confidence" = none ∧
      dictGet (defaultFinancialHealthAnalysis cd) "analysis_method" =
        some (.str "rule_based_fallback") ∧
      dictGet (defaultBusinessValuation cd) "success" = none ∧
      dictGet (defaultBusinessValuation cd) "confidence" = none ∧
      dictGet (defaultBusinessValuation cd) "analysis_method" =
        some (.str "multiple_based_fallback") ∧
      dictGet (defaultMarketTrendAnalysis md) "success" = none ∧
      dictGet (defaultMarketTrendAnalysis md) "confidence" = none ∧
      dictGet (defaultMarketTrendAnalysis md) "analysis_method" =
        some (.str "trend_based_fallback") := by
  intro cd md lu now p p'
  refine ⟨rfl, rfl, rfl, rfl, rfl, rfl, ?_, ?_, ?_, ?_, ?_, ?_, ?_, ?_, ?_⟩ <;>
    simp [defaultFinancialHealthAnalysis, defaultBusinessValuation,
      defaultMarketTrendAnalysis, dictGet]

/-- C2 counterexample: predict raising an exception whose `str(e)` is the
empty string (e.g. a bare `Exception()`) yields a result whose `error`
value is the empty string, refuting the claim's unconditional non-empty
error. -/
theorem C2_counterexample :
    dictGet (analyzeFinancialHealth true (.error "") emptyCompany
      none 0).1 "success" = some (.bool false) ∧
    dictGet (analyzeFinancialHealth true (.error "") emptyCompany
      none 0).1 "error" = some (.str "") := by
  refine ⟨?_, ?_⟩ <;> simp [analyzeFinancialHealth, dictGet]

/-- C2 amended: when the model is trained and predict raises an exception
with message `msg`, each single-domain operation returns — rather than
propagating — a dict with `success == false`, `error` equal to the
exception's message (empty exactly when the message is empty), and a
fallback payload computed by exactly the fallback function that the
untrained path returns directly; `last_used` is not updated. -/
theorem C2_predict_error_attaches_fallback :
    ∀ (cd : CompanyData) (md : MarketData) (lu : Option ℚ) (now : ℚ)
      (msg : String) (p : Except String PyVal),
      (analyzeFinancialHealth true (.error msg) cd lu now =
        ([("success", .bool false), ("error", .str msg),
          ("fallback_analysis", .dict (defaultFinancialHealthAnalysis cd))],
         lu) ∧
       (analyzeFinancialHealth false p cd lu now).1 =
         defaultFinancialHealthAnalysis cd ∧
       dictGet (analyzeFinancialHealth true (.error msg) cd lu now).1
         "error" = some (.str msg)) ∧
      (estimateBusinessValuation true (.error msg) cd lu now =
        ([("success", .bool false), ("error", .str msg),
          ("fallback_valuation", .dict (defaultBusinessValuation cd))],
         lu) ∧
       (estimateBusinessValuation false p cd lu now).1 =
         defaultBusinessValuation cd ∧
       dictGet (estimateBusinessValuation true (.error msg) cd lu now).1
         "error" = some (.str msg)) ∧
      (analyzeMarketTrends true (.error msg) md lu now =
        ([("success", .bool false), ("error", .str msg),
          ("fallback_analysis", .dict (defaultMarketTrendAnalysis md))],
         lu) ∧
       (analyzeMarketTrends false p md lu now).1 =
         defaultMarketTrendAnalysis md ∧
       dictGet (analyzeMarketTrends true (.error msg) md lu now).1
         "error" = some (.str msg)) := by
  intro cd md lu now msg p
  refine ⟨⟨rfl, rfl, ?_⟩, ⟨rfl, rfl, ?_⟩, ⟨rfl, rfl, ?_⟩⟩ <;>
    simp [analyzeFinancialHealth, estimateBusinessValuation,
      analyzeMarketTrends, dictGet]

/-- C6: starting from an untrained status, a `train_model` call whose
underlying `model.train` returns normally leaves the registry trained with
a non-null `last_trained`, while a call whose `model.train` raises leaves
the status record exactly as it was and returns a structured failure dict
(`success == false` with the error message) instead of propagating. -/
theorem C6_train_transitions :
    ∀ (st : ModelStatus) (name : String) (tr : PyVal) (msg : String)
      (now : ℚ), st.trained = false →
      ((trainModel true true (.ok tr) st name now).2.trained = true ∧
       (trainModel true true (.ok tr) st name now).2.last_trained =
         some now ∧
       (trainModel true true (.ok tr) st name now).2.last_trained ≠ none ∧
       dictGet (trainModel true true (.ok tr) st name now).1 "success" =
         some (.bool true)) ∧
      ((trainModel true true (.error msg) st name now).2 = st ∧
       (trainModel true true (.error msg) st name now).2.trained = false ∧
       (trainModel true true (.error msg) st name now).2.last_trained =
         st.last_trained ∧
       dictGet (trainModel true true (.error msg) st name now).1 "success" =
         some (.bool false) ∧
       dictGet (trainModel true true (.error msg) st name now).1 "error" =
         some (.str msg)) := by
  intro st name tr msg now hpre
  refine ⟨⟨rfl, rfl, ?_, ?_⟩, rfl, hpre, rfl, ?_, ?_⟩ <;>
    simp [trainModel, dictGet]

/-- C6 witness at a concrete input. -/
theorem C6_train_transitions_witness :
    (trainModel true true (.ok (.dict [])) ⟨false, none, none⟩
      "financial_health" 1).2.trained = true :=
  (C6_train_transitions ⟨false, none, none⟩ "financial_health"
    (.dict []) "boom" 1 rfl).1.1

/-- C7 counterexample: on a trained model with a successful predict, the
returned dict has no `method` key at all, and its `model_used` value is
the domain name `"financial_health"`, which is not the string
`"model"`. -/
theorem C7_counterexample :
    dictGet (analyzeFinancialHealth true (.ok (.dict [])) emptyCompany
      none 0).1 "method" = none ∧
    dictGet (analyzeFinancialHealth true (.ok (.dict [])) emptyCompany
      none 0).1 "model_used" = some (.str "financial_health") ∧
    PyVal.str "financial_health" ≠ PyVal.str "model" := by
  refine ⟨?_, ?_, ?_⟩ <;> simp [analyzeFinancialHealth, dictGet]

/-- C7 amended: if the model is trained and predict succeeds, the result
has `success == true`, `confidence "high"`, and `model_used` equal to the
domain's model name (not a `method` field `"model"`, which does not
exist); `last_used` is set to the current event-loop time `now`, which is
at least any timestamp `t0` observed before the call (assuming the clock
is monotone, `t0 ≤ now`). -/
theorem C7_trained_success :
    ∀ (cd : CompanyData) (md : MarketData) (lu : Option ℚ) (now t0 : ℚ)
      (r : PyVal), t0 ≤ now →
      (dictGet (analyzeFinancialHealth true (.ok r) cd lu now).1 "success" =
         some (.bool true) ∧
       dictGet (analyzeFinancialHealth true (.ok r) cd lu now).1 "confidence" =
         some (.str "high") ∧
       dictGet (analyzeFinancialHealth true (.ok r) cd lu now).1 "model_used" =
         some (.str "financial_health") ∧
       (analyzeFinancialHealth true (.ok r) cd lu now).2 = some now) ∧
      (dictGet (estimateBusinessValuation true (.ok r) cd lu now).1 "success" =
         some (.bool true) ∧
       dictGet (estimateBusinessValuation true (.ok r) cd lu now).1 "confidence" =
         some (.str "high") ∧
       dictGet (estimateBusinessValuation true (.ok r) cd lu now).1 "model_used" =
         some (.str "business_valuation") ∧
       (estimateBusinessValuation true (.ok r) cd lu now).2 = some now) ∧
      (dictGet (analyzeMarketTrends true (.ok r) md lu now).1 "success" =
         some (.bool true) ∧
       dictGet (analyzeMarketTrends true (.ok r) md lu now).1 "confidence" =
         some (.str "high") ∧
       dictGet (analyzeMarketTrends true (.ok r) md lu now).1 "model_used" =
         some (.str "market_trends") ∧
       (analyzeMarketTrends true (.ok r) md lu now).2 = some now) ∧
      t0 ≤ now := by
  intro cd md lu now t0 r hclock
  refine ⟨⟨?_, ?_, ?_, rfl⟩, ⟨?_, ?_, ?_, rfl⟩, ⟨?_, ?_, ?_, rfl⟩, hclock⟩ <;>
    simp [analyzeFinancialHealth, estimateBusinessValuation,
      analyzeMarketTrends, dictGet]

/-- C7 amended witness at a concrete input. -/
theorem C7_trained_success_witness :
    (analyzeFinancialHealth true (.ok (.dict [])) emptyCompany none 5).2 =
      some 5 :=
  (C7_trained_success emptyCompany ⟨none, none⟩ none 5 2 (.dict [])
    (by norm_num)).1.2.2.2

/-- C3 counterexample: supplying an empty market-data mapping (a supplied
market input that is falsy in Python) dispatches only 2 sub-analyses, not
3 as the claim requires for every supplied market input. -/
theorem C3_counterexample :
    (comprehensiveGather (some []) (.ok []) (.ok []) (.ok [])).length = 2 ∧
    (comprehensiveGather (some []) (.ok []) (.ok []) (.ok [])).length ≠ 3 := by
  have h : (comprehensiveGather (some []) (.ok []) (.ok []) (.ok [])).length
      = 2 := rfl
  exact ⟨h, by rw [h]; norm_num⟩

/-- C3 amended: `comprehensive_analysis` returns exactly one per-domain
result per dispatched sub-analysis — 2 when market data is absent, 3 when
a non-empty market mapping is supplied (an empty mapping is falsy and
behaves like absence) — each keyed `analysis_<index>`; an exception
escaping sub-analysis `i` is recorded at its key as
`{success: false, error: message}` and every other outcome is stored
unchanged. -/
theorem C3_comprehensive_fanout :
    ∀ (md : Option (List (String × PyVal)))
      (o1 o2 o3 : Except String (List (String × PyVal))),
      (comprehensiveGather md o1 o2 o3).length =
        (if marketTruthy md then [o1, o2, o3] else [o1, o2]).length ∧
      (md = none → (comprehensiveGather md o1 o2 o3).length = 2) ∧
      (∀ d, md = some d → d ≠ [] →
        (comprehensiveGather md o1 o2 o3).length = 3) ∧
      (∀ i, (comprehensiveGather md o1 o2 o3).get? i =
        ((if marketTruthy md then [o1, o2, o3] else [o1, o2]).get? i).map
          (fun o => ("analysis_" ++ toString i,
            match o with
            | .ok dd => PyVal.dict dd
            | .error m => PyVal.dict
                [("success", .bool false), ("error", .str m)]))) := by
  intro md o1 o2 o3
  by_cases hmt : marketTruthy md
  · refine ⟨by simp [comprehensiveGather, gatherResults, hmt], ?_, ?_, ?_⟩
    · intro hnone; rw [hnone] at hmt; exact absurd hmt (by decide)
    · intro d _ _; simp [comprehensiveGather, gatherResults, hmt]
    · intro i
      simp only [comprehensiveGather, hmt, if_true]
      rcases i with _ | _ | _ | i <;> rfl
  · have hmt' : marketTruthy md = false := by
      simpa using hmt
    refine ⟨by simp [comprehensiveGather, gatherResults, hmt'], ?_, ?_, ?_⟩
    · intro _; simp [comprehensiveGather, gatherResults, hmt']
    · intro d hd hne
      rw [hd] at hmt'
      simp only [marketTruthy, Bool.not_eq_false'] at hmt'
      exact absurd (List.isEmpty_iff.mp hmt') hne
    · intro i
      simp only [comprehensiveGather, hmt', if_false, Bool.false_eq_true]
      rcases i with _ | _ | i <;> rfl

/-- C3 amended witness at a concrete input. -/
theorem C3_comprehensive_fanout_witness :
    (comprehensiveGather none (.error "boom") (.ok []) (.ok [])).length = 2 :=
  (C3_comprehensive_fanout none (.error "boom") (.ok []) (.ok [])).2.1 rfl

/-! ## Well-formed results and the insight rules -/

/-- The value under `k` in `d`, when present, is a number (the source
compares it numerically without a type check). -/
def wfNumKey (d : List (String × PyVal)) (k : String) : Bool :=
  match dictGet d k with
  | some (.num _) => true
  | some _ => false
  | none => true

/-- The value under `outer` in `r`, when present, is a dict whose `inner`
entry, when present, is a number. -/
def wfNested (r : PyVal) (outer inner : String) : Bool :=
  match pyGet r outer with
  | some (.dict a) => wfNumKey a inner
  | some _ => false
  | none => true

/-- A per-domain result the synthesizer can traverse without a dynamic
type error: a dict, and when its `success` entry is truthy, its
`analysis` and `valuation` payloads (when present) are dicts whose
`health_score` / `valuation` entries (when present) are numbers. -/
def wfResult (r : PyVal) : Bool :=
  match r with
  | .dict d =>
      if truthyO (dictGet d "success") then
        wfNested r "analysis" "health_score" &&
          wfNested r "valuation" "valuation"
      else true
  | _ => false

/-- The condition under which some insight rule of
`_generate_comprehensive_insights` fires for one named result. -/
def ruleFires (name : String) (r : PyVal) : Bool :=
  truthyO (pyGet r "success") &&
  ((strContains name "financial_health" && (pyGet r "analysis").isSome &&
      (decide (getNum ((pyGet r "analysis").getD (.dict []))
          "health_score" 0 > 80) ||
       decide (getNum ((pyGet r "analysis").getD (.dict []))
          "health_score" 0 < 40))) ||
   (strContains name "business_valuation" && (pyGet r "valuation").isSome &&
      decide (getNum ((pyGet r "valuation").getD (.dict []))
          "valuation" 0 > 10000000)) ||
   (strContains name "market_trends" && (pyGet r "analysis").isSome &&
      decide (getStr ((pyGet r "analysis").getD (.dict []))
          "trend_direction" = some "bullish")))

/-- One named result contributes each insight string at most once. -/
theorem insightsFor_count_le_one (name : String) (r : PyVal) (m : String) :
    (insightsFor name r).count m ≤ 1 := by
  have hnd : (insightsFor name r).Nodup := by
    simp only [insightsFor, fhInsight, valInsight, mktInsight]
    split_ifs <;> decide
  exact List.nodup_iff_count_le_one.mp hnd m

/-- The default insight string is never produced by a rule. -/
theorem default_not_mem_insightsFor (name : String) (r : PyVal) :
    "Analysis completed successfully" ∉ insightsFor name r := by
  simp only [insightsFor, fhInsight, valInsight, mktInsight]
  split_ifs <;> decide

/-- The financial-health segment is empty exactly when its rule does not
fire. -/
theorem fhInsight_eq_nil_iff (name : String) (r : PyVal) :
    fhInsight name r = [] ↔
      (strContains name "financial_health" && (pyGet r "analysis").isSome &&
        (decide (getNum ((pyGet r "analysis").getD (.dict []))
            "health_score" 0 > 80) ||
         decide (getNum ((pyGet r "analysis").getD (.dict []))
            "health_score" 0 < 40))) = false := by
  simp only [fhInsight]
  split_ifs with hg h80 h40 <;> simp_all

/-- The valuation segment is empty exactly when its rule does not fire. -/
theorem valInsight_eq_nil_iff (name : String) (r : PyVal) :
    valInsight name r = [] ↔
      (strContains name "business_valuation" && (pyGet r "valuation").isSome &&
        decide (getNum ((pyGet r "valuation").getD (.dict []))
            "valuation" 0 > 10000000)) = false := by
  simp only [valInsight]
  split_ifs with hg h10 <;> simp_all

/-- The market-trend segment is empty exactly when its rule does not
fire. -/
theorem mktInsight_eq_nil_iff (name : String) (r : PyVal) :
    mktInsight name r = [] ↔
      (strContains name "market_trends" && (pyGet r "analysis").isSome &&
        decide (getStr ((pyGet r "analysis").getD (.dict []))
            "trend_direction" = some "bullish")) = false := by
  simp only [mktInsight]
  split_ifs with hg hb <;> simp_all

/-- A named result contributes no insight exactly when no rule fires on
it. -/
theorem insightsFor_eq_nil_iff (name : String) (r : PyVal) :
    insightsFor name r = [] ↔ ruleFires name r = false := by
  simp only [insightsFor, ruleFires]
  cases hts : truthyO (pyGet r "success")
  · simp
  · simp only [if_true, Bool.true_and, List.append_eq_nil,
      Bool.or_eq_false_iff, fhInsight_eq_nil_iff, valInsight_eq_nil_iff,
      mktInsight_eq_nil_iff]

/-- The synthesizer emits exactly the single default string iff every
named result contributes no insight. -/
theorem generateComprehensiveInsights_default_iff
    (ars : List (String × PyVal)) :
    generateComprehensiveInsights ars =
        ["Analysis completed successfully"] ↔
      ∀ p ∈ ars, insightsFor p.1 p.2 = [] := by
  simp only [generateComprehensiveInsights]
  by_cases hemp : ((ars.map fun p => insightsFor p.1 p.2).flatten).isEmpty
  · rw [if_pos hemp]
    simp only [List.isEmpty_iff, List.flatten_eq_nil_iff] at hemp
    constructor
    · intro _ p hp
      exact hemp _ (List.mem_map_of_mem _ hp)
    · intro _; rfl
  · rw [if_neg hemp]
    simp only [List.isEmpty_iff, List.flatten_eq_nil_iff] at hemp
    constructor
    · intro hflat
      have hmem : "Analysis completed successfully" ∈
          (ars.map fun p => insightsFor p.1 p.2).flatten := by
        rw [hflat]; exact List.mem_singleton.mpr rfl
      rcases List.mem_flatten.mp hmem with ⟨l, hl, hml⟩
      rcases List.mem_map.mp hl with ⟨p, _, rfl⟩
      exact absurd hml (default_not_mem_insightsFor p.1 p.2)
    · intro hall
      exact absurd (fun l hl => by
        rcases List.mem_map.mp hl with ⟨p, hp, rfl⟩
        exact hall p hp) hemp

/-- C8: over any well-formed set of per-domain results, each successful
result yields at most one copy of each insight string, a result
contributes nothing exactly when none of the four threshold rules fires on
it, and the output is exactly the single default string
`"Analysis completed successfully"` iff no rule fires across all
results. -/
theorem C8_insight_rules :
    ∀ (ars : List (String × PyVal)),
      (∀ p ∈ ars, wfResult p.2 = true) →
      (∀ p ∈ ars, ∀ m, (insightsFor p.1 p.2).count m ≤ 1) ∧
      (∀ p ∈ ars, (insightsFor p.1 p.2 = [] ↔ ruleFires p.1 p.2 = false)) ∧
      (generateComprehensiveInsights ars =
          ["Analysis completed successfully"] ↔
        ∀ p ∈ ars, ruleFires p.1 p.2 = false) := by
  intro ars _hwf
  refine ⟨fun p _ m => insightsFor_count_le_one p.1 p.2 m,
    fun p _ => insightsFor_eq_nil_iff p.1 p.2, ?_⟩
  rw [generateComprehensiveInsights_default_iff]
  constructor
  · intro h p hp
    exact (insightsFor_eq_nil_iff p.1 p.2).mp (h p hp)
  · intro h p hp
    exact (insightsFor_eq_nil_iff p.1 p.2).mpr (h p hp)

/-- C8 witness at a concrete input. -/
theorem C8_insight_rules_witness :
    generateComprehensiveInsights
        [("analysis_0", .dict [("success", .bool true)])] =
      ["Analysis completed successfully"] :=
  (C8_insight_rules [("analysis_0", .dict [("success", .bool true)])]
    (by decide)).2.2.mpr (by decide)

/-- C10: a single-domain result produced via the untrained fallback path
has no `success` key, hence a falsy `success` lookup; any named result
with a falsy `success` lookup makes the summary differ from the
all-successful template (it is counted as a failure) and contributes
nothing to the insight and recommendation generators. -/
theorem C10_untrained_counts_as_failure :
    (∀ (cd : CompanyData) (md : MarketData) (lu : Option ℚ) (now : ℚ)
       (p : Except String PyVal),
      dictGet (analyzeFinancialHealth false p cd lu now).1 "success" = none ∧
      dictGet (estimateBusinessValuation false p cd lu now).1 "success" =
        none ∧
      dictGet (analyzeMarketTrends false p md lu now).1 "success" = none ∧
      truthyO (pyGet (.dict (analyzeFinancialHealth false p cd lu now).1)
        "success") = false ∧
      truthyO (pyGet (.dict (estimateBusinessValuation false p cd lu now).1)
        "success") = false ∧
      truthyO (pyGet (.dict (analyzeMarketTrends false p md lu now).1)
        "success") = false) ∧
    (∀ (ars : List (String × PyVal)) (q : String × PyVal), q ∈ ars →
      truthyO (pyGet q.2 "success") = false →
      generateAnalysisSummary ars ≠
        "All " ++ toString ars.length ++
          " analyses completed successfully with high confidence" ∧
      insightsFor q.1 q.2 = [] ∧
      recsFor q.1 q.2 = []) := by
  constructor
  · intro cd md lu now p
    refine ⟨?_, ?_, ?_, ?_, ?_, ?_⟩ <;>
      simp [analyzeFinancialHealth, estimateBusinessValuation,
        analyzeMarketTrends, defaultFinancialHealthAnalysis,
        defaultBusinessValuation, defaultMarketTrendAnalysis, dictGet,
        pyGet, truthyO]
  · intro ars q hq hfail
    exact ⟨summary_ne_allTemplate ars q hq hfail,
      by simp [insightsFor, hfail],
      by simp [recsFor, hfail]⟩

/-- C10 witness at a concrete input. -/
theorem C10_untrained_counts_as_failure_witness :
    generateAnalysisSummary [("analysis_0", PyVal.dict [])] ≠
      "All " ++ toString (List.length [("analysis_0", PyVal.dict [])]) ++
        " analyses completed successfully with high confidence" :=
  ((C10_untrained_counts_as_failure).2 [("analysis_0", PyVal.dict [])]
    ("analysis_0", PyVal.dict []) (List.mem_singleton.mpr rfl) rfl).1

end CorpFin
